import Mathlib

/-!
Verification development for `monitor3.py`, the control core of a
portable NTP server appliance (timers, button debouncing, and the
Monitor state machine).  Python datetimes are embedded as integer
microsecond counts; Python `timedelta` component access is embedded with
the same floor-division normalization CPython uses; machine-external
effects (GPIO, subprocessses, the e-ink display, gpsd shared memory)
are embedded as explicit environment records and render-event logs.
-/

/-! ## Python timedelta component arithmetic

A CPython `timedelta` normalizes to `(days, seconds, microseconds)` with
`0 ≤ microseconds < 10^6` and `0 ≤ seconds < 86400` via floor division,
so for a delta of `d` total microseconds, `.microseconds` is `d mod 10^6`
and `.seconds` is `(d fdiv 10^6) mod 86400`.  `Int.emod`/`Int.ediv` with a
positive modulus agree with Python floor semantics. -/

def td_microseconds (d : Int) : Int := d % 1000000

def td_seconds (d : Int) : Int := (d / 1000000) % 86400

/-- The within-day part `seconds*10^6 + microseconds` of a timedelta is the
total microseconds modulo one day. -/
theorem td_day_part (d : Int) :
    td_seconds d * 1000000 + td_microseconds d = d % 86400000000 := by
  unfold td_seconds td_microseconds
  omega

/-! ## Button and ButtonController (monitor3.py lines 193-284)

`Button` mirrors the Python class: a debounced `status` and a raw
`momentary_status`, each `"UP"`/`"DOWN"` with a timestamp (microseconds
since the epoch).  The short/long callbacks are embedded as `Option Unit`
(present or `None`); which handler actually fires is reported in a
`Fired` event list. -/

structure Button where
  button_id : String
  pin_number : Nat
  callback_short : Option Unit
  callback_long : Option Unit
  status : String
  status_time : Int
  momentary_status : String
  momentary_status_time : Int
deriving DecidableEq, Repr

inductive Fired where
  | short
  | long
deriving DecidableEq, Repr

/-- Click classification on a committed transition (lines 259-266): fires
only when the new debounced status is `"UP"`; the long handler when the
whole-seconds-plus-microseconds components of the elapsed delta reach
1000000 us, otherwise the short handler; a `None` handler fires nothing. -/
def fires_for (b2 : Button) (old_time : Int) : List Fired :=
  if b2.status = "UP" then
    let delta := b2.status_time - old_time
    if td_seconds delta * 1000000 + td_microseconds delta ≥ 1000000 then
      if b2.callback_long.isSome then [Fired.long] else []
    else
      if b2.callback_short.isSome then [Fired.short] else []
  else []

/-- One button's treatment inside `ButtonController.check_transitions`
(lines 253-266): on a status mismatch, if the `.microseconds` component of
`t - momentary_status_time` exceeds 100000, commit the momentary status and
timestamp and classify the click. -/
def check_button (t : Int) (b : Button) : Button × List Fired :=
  if b.status ≠ b.momentary_status then
    if td_microseconds (t - b.momentary_status_time) > 100000 then
      let b2 : Button :=
        { b with status := b.momentary_status, status_time := b.momentary_status_time }
      (b2, fires_for b2 b.status_time)
    else (b, [])
  else (b, [])

/-- `ButtonController.check_transitions` (lines 249-270) over the list of
registered buttons: processes every button, and stops the poll timer
(third component `true` = stopped) exactly when no button showed a
mismatch at the time it was examined. -/
def check_transitions (t : Int) (bs : List Button) : List Button × List Fired × Bool :=
  let rs := bs.map (check_button t)
  let mismatch := bs.any (fun b => b.status != b.momentary_status)
  (rs.map Prod.fst, rs.foldr (fun r acc => r.2 ++ acc) [], !mismatch)

/-! ## RepeatedTimer / RepeatedRealTimer stop-vs-callback race (lines 60-179)

`RepeatedTimer._run` executes a locked section (reschedule if `active`)
and then calls the wrapped function outside the lock; `stop()` cancels the
pending `Timer` under the lock.  The interleaving of one expired-timer
`_run` execution with a concurrent `stop()` is embedded as a sequence of
atomic events over a small state. -/

structure TimerSt where
  active : Bool
  pending : Bool
  stopDone : Bool
  callsAfterStop : Nat
deriving DecidableEq, Repr

inductive TimerEv where
  /-- the locked section of `_run`: reschedules the next Timer if active -/
  | runLocked
  /-- `_run` invokes `self.function(...)` (outside the lock in
  `RepeatedTimer`, before the lock in `RepeatedRealTimer`) -/
  | callFn
  /-- `stop()`: under the lock, cancel the pending timer and clear
  `active`; it then returns -/
  | stopTimer
deriving DecidableEq, Repr

def timerStep : TimerSt → TimerEv → TimerSt
  | s, TimerEv.runLocked => if s.active then { s with pending := true } else s
  | s, TimerEv.callFn =>
      if s.stopDone then { s with callsAfterStop := s.callsAfterStop + 1 } else s
  | s, TimerEv.stopTimer => { s with pending := false, active := false, stopDone := true }

def timerRun (evs : List TimerEv) (s : TimerSt) : TimerSt := evs.foldl timerStep s

/-- State when a scheduled timer has just expired and its `_run` is about
to execute. -/
def timerInit : TimerSt :=
  { active := true, pending := false, stopDone := false, callsAfterStop := 0 }

/-! ## Menu and Monitor actions (monitor3.py lines 605-632, 790-1014)

Menu handler closures are embedded as an `MAction` tag enumeration; a
`Menu` bundles three icon file names and six optional handlers exactly as
the Python constructor does. -/

inductive MAction where
  | refresh
  | sleep
  | cancel_wifi_select
  | wifi_select
  | wifi_home
  | wifi_field
  | wifi_off
  | power
  | exit_confirm
  | wakeup
  | shutdown
  | cancel_shutdown
  | exit_monitor
  | cancel_exit
deriving DecidableEq, Repr

structure Menu where
  icon_top : String
  icon_middle : String
  icon_bottom : String
  action_on_top_pressed_short : Option MAction
  action_on_top_pressed_long : Option MAction
  action_on_middle_pressed_short : Option MAction
  action_on_middle_pressed_long : Option MAction
  action_on_bottom_pressed_short : Option MAction
  action_on_bottom_pressed_long : Option MAction
deriving DecidableEq, Repr

/-- `Monitor.__init__` lines 816-819. -/
def main_menu : Menu :=
  ⟨"refresh.png", "wifi.png", "power.png",
   some MAction.refresh, some MAction.sleep,
   some MAction.wifi_select, none,
   some MAction.power, some MAction.exit_confirm⟩

/-- `Monitor.__init__` lines 821-822. -/
def sleep_menu : Menu :=
  ⟨"alarm-clock.png", "empty.png", "power.png",
   some MAction.wakeup, none, none, none, some MAction.power, none⟩

/-- `Monitor.__init__` lines 824-825. -/
def power_menu : Menu :=
  ⟨"shutdown.png", "back.png", "empty.png",
   some MAction.shutdown, none, some MAction.cancel_shutdown, none, none, none⟩

/-- `Monitor.__init__` lines 827-828. -/
def exit_menu : Menu :=
  ⟨"exit.png", "back.png", "empty.png",
   some MAction.exit_monitor, none, some MAction.cancel_exit, none, none, none⟩

/-- `Monitor.__init__` lines 830-831, the initial wifi menu. -/
def wifi_menu0 : Menu :=
  ⟨"home-wifi.png", "field-wifi.png", "no-wifi.png",
   some MAction.wifi_home, none, some MAction.wifi_field, none,
   some MAction.wifi_off, none⟩

/-- Render and commit calls issued to the display sink during a refresh
pass; the display image is embedded as the log of these events. -/
inductive RenderOp where
  | clear
  | buttonIcons
  | gpsGraphics
  | ntpStatus
  | maidenheadOp
  | altitudeOp
  | magDecl
  | dateTime
  | statusLine (line : String)
  | showFinal
  | showSleeping
  | showPicture
  | showFinalFull
deriving DecidableEq, Repr

/-- Monitor controller and display state (fields of `Monitor`, its
`DspInfo` display, and the GPS fix string that `refresh_info` reads). -/
structure MState where
  in_progress : Bool
  work_mode : String
  picture_done : Bool
  shutdown_stage : Nat
  first_3D_received : Bool
  wifi_mode : String
  n_refresh : Nat
  current_menu : Menu
  current_menu_changed : Bool
  wifi_menu : Menu
  one_time_refresh : Bool
  event_set : Bool
  gps_fix : String
  rendered : List RenderOp
deriving DecidableEq, Repr

/-- `Monitor.set_current_menu` (lines 856-858). -/
def set_current_menu (s : MState) (m : Menu) : MState :=
  { s with current_menu := m, current_menu_changed := true }

/-- `self.action_event.set()`. -/
def set_event (s : MState) : MState := { s with event_set := true }

/-- `Monitor.action_refresh` (lines 863-866). -/
def action_refresh (s : MState) : MState :=
  if s.work_mode = "run" then set_event { s with one_time_refresh := true } else s

/-- `Monitor.action_sleep` (lines 871-875). -/
def action_sleep (s : MState) : MState :=
  if s.work_mode = "run" then
    set_event (set_current_menu { s with work_mode := "sleep" } sleep_menu)
  else s

/-- `Monitor.action_cancel_wifi_select` (lines 880-882); note: no
work-mode guard in the source. -/
def action_cancel_wifi_select (s : MState) : MState :=
  set_event (set_current_menu s main_menu)

/-- The context-sensitive wifi menu built by `Monitor.action_wifi_select`
(lines 889-897). -/
def wifiMenuFor (mode : String) : Menu :=
  if mode = "AP" then
    ⟨"home-wifi.png", "back.png", "no-wifi.png",
     some MAction.wifi_home, none, some MAction.cancel_wifi_select, none,
     some MAction.wifi_off, none⟩
  else if mode = "CLIENT" then
    ⟨"back.png", "field-wifi.png", "no-wifi.png",
     some MAction.cancel_wifi_select, none, some MAction.wifi_field, none,
     some MAction.wifi_off, none⟩
  else
    ⟨"home-wifi.png", "field-wifi.png", "back.png",
     some MAction.wifi_home, none, some MAction.wifi_field, none,
     some MAction.cancel_wifi_select, none⟩

/-- `Monitor.action_wifi_select` (lines 887-899). -/
def action_wifi_select (s : MState) : MState :=
  if s.work_mode = "run" ∨ s.work_mode = "sleep" then
    let m := wifiMenuFor s.wifi_mode
    set_event (set_current_menu { s with wifi_menu := m } m)
  else s

/-- `Monitor.action_wifi_home` (lines 905-917); the `set_wifi.sh CLIENT`
subprocess is fire-and-forget and not part of the controller state. -/
def action_wifi_home (s : MState) : MState :=
  if s.work_mode = "run" then
    set_event (set_current_menu { s with wifi_mode := "CLIENT" } main_menu)
  else s

/-- `Monitor.action_wifi_field` (lines 922-933). -/
def action_wifi_field (s : MState) : MState :=
  if s.work_mode = "run" then
    set_event (set_current_menu { s with wifi_mode := "AP" } main_menu)
  else s

/-- `Monitor.action_wifi_off` (lines 938-949). -/
def action_wifi_off (s : MState) : MState :=
  if s.work_mode = "run" then
    set_event (set_current_menu { s with wifi_mode := "OFF" } main_menu)
  else s

/-- `Monitor.action_power` (lines 954-957). -/
def action_power (s : MState) : MState :=
  if s.work_mode = "run" ∨ s.work_mode = "sleep" then
    set_event (set_current_menu s power_menu)
  else s

/-- `Monitor.action_exit_confirm` (lines 962-966). -/
def action_exit_confirm (s : MState) : MState :=
  if s.work_mode = "run" ∨ s.work_mode = "sleep" then
    set_event (set_current_menu s exit_menu)
  else s

/-- `Monitor.action_wakeup` (lines 971-976). -/
def action_wakeup (s : MState) : MState :=
  if s.work_mode = "sleep" then
    set_event { (set_current_menu { s with work_mode := "run" } main_menu) with
                one_time_refresh := true }
  else s

/-- `Monitor.action_shutdown` (lines 981-984). -/
def action_shutdown (s : MState) : MState :=
  if s.work_mode = "run" ∨ s.work_mode = "sleep" then
    set_event { s with shutdown_stage := 1 }
  else s

/-- `Monitor.action_cancel_shutdown` (lines 989-995). -/
def action_cancel_shutdown (s : MState) : MState :=
  if s.work_mode = "run" then set_event (set_current_menu s main_menu)
  else if s.work_mode = "sleep" then set_event (set_current_menu s sleep_menu)
  else s

/-- `Monitor.action_exit` (lines 1000-1003). -/
def action_exit (s : MState) : MState :=
  if s.work_mode = "run" ∨ s.work_mode = "sleep" then
    set_event { s with work_mode := "stop" }
  else s

/-- `Monitor.action_cancel_exit` (lines 1008-1014). -/
def action_cancel_exit (s : MState) : MState :=
  if s.work_mode = "run" then set_event (set_current_menu s main_menu)
  else if s.work_mode = "sleep" then set_event (set_current_menu s sleep_menu)
  else s

/-- Dispatch from a handler tag to the handler it names. -/
def applyAction : MAction → MState → MState
  | MAction.refresh, s => action_refresh s
  | MAction.sleep, s => action_sleep s
  | MAction.cancel_wifi_select, s => action_cancel_wifi_select s
  | MAction.wifi_select, s => action_wifi_select s
  | MAction.wifi_home, s => action_wifi_home s
  | MAction.wifi_field, s => action_wifi_field s
  | MAction.wifi_off, s => action_wifi_off s
  | MAction.power, s => action_power s
  | MAction.exit_confirm, s => action_exit_confirm s
  | MAction.wakeup, s => action_wakeup s
  | MAction.shutdown, s => action_shutdown s
  | MAction.cancel_shutdown, s => action_cancel_shutdown s
  | MAction.exit_monitor, s => action_exit s
  | MAction.cancel_exit, s => action_cancel_exit s

/-- The work-mode guard each handler tests in the source (the `if
self.work_mode == ...` condition opening its body).
`action_cancel_wifi_select` has no guard in the source; it is given the
empty list here and is treated separately. -/
def guardSet : MAction → List String
  | MAction.refresh => ["run"]
  | MAction.sleep => ["run"]
  | MAction.cancel_wifi_select => []
  | MAction.wifi_select => ["run", "sleep"]
  | MAction.wifi_home => ["run"]
  | MAction.wifi_field => ["run"]
  | MAction.wifi_off => ["run"]
  | MAction.power => ["run", "sleep"]
  | MAction.exit_confirm => ["run", "sleep"]
  | MAction.wakeup => ["sleep"]
  | MAction.shutdown => ["run", "sleep"]
  | MAction.cancel_shutdown => ["run", "sleep"]
  | MAction.exit_monitor => ["run", "sleep"]
  | MAction.cancel_exit => ["run", "sleep"]

/-! ## Monitor.refresh_info (monitor3.py lines 1075-1161)

The external data sources (`GPSAPI.update`, `ChronyInfo.update`,
`NetworkInfo.update`) each run subprocesses / read shared memory and
parse the output with no exception handler, so each may raise (for
example `ChronyInfo.update` indexes `s.split(",")[1]` of an empty
`chronyc` output).  The environment record fixes, per pass, whether each
raises and otherwise what it yields.  `refresh_info` returns the state as
mutated so far paired with `Except.ok` on normal return or
`Except.error` when an exception propagates out (the source body has no
try/finally around `in_progress`). -/

structure MEnv where
  gpsFails : Bool
  chronyFails : Bool
  netFails : Bool
  /-- value of `gpsapi.fix` after a successful `update()` -/
  gpsFix : String
  /-- value of `netinfo.get_status("wlan0")` after a successful update -/
  netStatus : String
deriving DecidableEq, Repr

/-- Lines 1158-1161: release `in_progress` and, when the shutdown stage is
CONFIRMED, force the work mode to `"stop"` — the tail of a normally
completing `refresh_info` pass. -/
def refresh_tail (s : MState) : MState :=
  let s2 := { s with in_progress := false }
  if s2.shutdown_stage = 2 then { s2 with work_mode := "stop" } else s2

/-- `Monitor.refresh_info` (lines 1075-1161). -/
def refresh_info (env : MEnv) (s0 : MState) : MState × Except Unit Unit :=
  -- lines 1079-1087: mutual-exclusion flag; a pass already in progress
  -- returns immediately
  if s0.in_progress then ({ s0 with in_progress := true }, Except.ok ()) else
  let s := { s0 with in_progress := true, n_refresh := s0.n_refresh + 1 }
  if s.work_mode = "run" then
    -- lines 1098-1100: the three external updates, any of which may raise
    if env.gpsFails then (s, Except.error ()) else
    let s := { s with gps_fix := env.gpsFix }
    if env.chronyFails then (s, Except.error ()) else
    if env.netFails then (s, Except.error ()) else
    -- lines 1107-1112: one-time clock adjustment on the first 3D fix
    let s := if ¬ s.first_3D_received ∧ s.gps_fix = "3D" then
               { s with first_3D_received := true }
             else s
    -- lines 1117-1128: full render; `button_icons` reads the current menu
    -- through `get_current_menu`, which clears `current_menu_changed`
    let s := { s with
               rendered := s.rendered ++
                 [RenderOp.clear, RenderOp.buttonIcons, RenderOp.gpsGraphics,
                  RenderOp.ntpStatus, RenderOp.maidenheadOp, RenderOp.altitudeOp,
                  RenderOp.magDecl, RenderOp.dateTime],
               current_menu_changed := false }
    -- lines 1129-1133: network status line, or the shutting-down notice
    let s := if s.shutdown_stage = 0 then
               { s with rendered := s.rendered ++ [RenderOp.statusLine (env.netStatus)] }
             else
               { s with
                 rendered := s.rendered ++ [RenderOp.statusLine ("Shutting down ...")],
                 shutdown_stage := 2 }
    -- lines 1134-1136
    let s := { s with rendered := s.rendered ++ [RenderOp.showFinal], picture_done := false }
    (refresh_tail s, Except.ok ())
  else if s.work_mode = "sleep" then
    -- lines 1142-1155
    if s.current_menu_changed ∨ ¬ s.picture_done ∨ s.shutdown_stage = 1 then
      let s := if s.shutdown_stage = 1 then
                 { s with
                   rendered := s.rendered ++ [RenderOp.showSleeping],
                   shutdown_stage := 2 }
               else
                 { s with
                   rendered := s.rendered ++ [RenderOp.showPicture, RenderOp.buttonIcons],
                   current_menu_changed := false }
      let s := { s with rendered := s.rendered ++ [RenderOp.showFinalFull], picture_done := true }
      (refresh_tail s, Except.ok ())
    else (refresh_tail s, Except.ok ())
  else (refresh_tail s, Except.ok ())

/-- `Monitor.continue_work` (lines 1167-1171). -/
def continue_work (s : MState) : Bool :=
  if s.work_mode = "stop" then false else true

/-- The controller state right after `Monitor.__init__` (lines 792-836). -/
def s0run : MState :=
  { in_progress := false
    work_mode := "run"
    picture_done := false
    shutdown_stage := 0
    first_3D_received := false
    wifi_mode := "AP"
    n_refresh := 0
    current_menu := main_menu
    current_menu_changed := false
    wifi_menu := wifi_menu0
    one_time_refresh := true
    event_set := false
    gps_fix := "  "
    rendered := [] }

/-- An environment where every external update succeeds. -/
def envOk : MEnv :=
  { gpsFails := false, chronyFails := false, netFails := false,
    gpsFix := "  ", netStatus := "wlan0: 192.168.4.1  (1)" }

/-- An environment where `chronyc -c tracking` yields empty output, so
`ChronyInfo.update` raises `IndexError` at `s.split(",")[1]`. -/
def envChronyDown : MEnv :=
  { gpsFails := false, chronyFails := true, netFails := false,
    gpsFix := "  ", netStatus := "wlan0: inactive" }

/-! ## GPSAPI.maidenhead (monitor3.py lines 480-596)

Latitude/longitude arithmetic is embedded over the rationals; Python
`int(x)` truncates toward zero, which is `Int.tdiv` on a rational's
numerator and denominator.  Every lookup index is clamped by the source's
explicit `if < 0 / elif > hi` chains, so the bound properties below are
independent of float rounding.  The external timezonefinder / pytz /
pyIGRF lookups triggered on a grid change are abstracted into a `TZEnv`
record of their results. -/

/-- Python `int()` truncation toward zero of a rational. -/
def pyInt (q : ℚ) : Int := Int.tdiv q.num q.den

/-- The source's clamp pattern `if v < 0: 0 elif v > hi: hi`. -/
def clampI (v : Int) (hi : Int) : Int :=
  if v < 0 then 0 else if v > hi then hi else v

def lo1 (lon : ℚ) : Int := clampI (pyInt ((lon + 180) / 20)) 17

def lo1rem (lon : ℚ) : ℚ := (lon + 180) - (lo1 lon : ℚ) * 20

def lo2 (lon : ℚ) : Int := clampI (pyInt (lo1rem lon / 2)) 9

def lo2rem (lon : ℚ) : ℚ := lo1rem lon - (lo2 lon : ℚ) * 2

def lo3 (lon : ℚ) : Int := clampI (pyInt (lo2rem lon * 12)) 23

def lo3rem (lon : ℚ) : ℚ := lo2rem lon * 12 - (lo3 lon : ℚ)

def lo4 (lon : ℚ) : Int := clampI (pyInt (lo3rem lon * 10)) 9

def la1 (lat : ℚ) : Int := clampI (pyInt ((lat + 90) / 10)) 17

def la1rem (lat : ℚ) : ℚ := (lat + 90) - (la1 lat : ℚ) * 10

def la2 (lat : ℚ) : Int := clampI (pyInt (la1rem lat)) 9

def la2rem (lat : ℚ) : ℚ := la1rem lat - (la2 lat : ℚ)

def la3 (lat : ℚ) : Int := clampI (pyInt (la2rem lat * 24)) 23

def la3rem (lat : ℚ) : ℚ := la2rem lat * 24 - (la3 lat : ℚ)

def la4 (lat : ℚ) : Int := clampI (pyInt (la3rem lat * 10)) 9

/-- The `L1` alphabet of the source (also used for `la1`). -/
def L1 : String := "ABCDEFGHIJKLMNOPQR"

/-- `L3.lower()` as applied at the lookup sites in line 552. -/
def L3low : String := "abcdefghijklmnopqrstuvwx"

/-- Indexing a string by a (clamped) integer; the default is never used
for in-range indices. -/
def charAtD (s : String) (i : Int) : Char := s.data.getD i.toNat '?'

/-- The grid string of line 552: eight characters, the letter/digit pairs
in longitude-first order. -/
def maidenhead_grid (lat lon : ℚ) : String :=
  String.singleton (charAtD L1 (lo1 lon)) ++ String.singleton (charAtD L1 (la1 lat)) ++
  toString (lo2 lon) ++ toString (la2 lat) ++
  String.singleton (charAtD L3low (lo3 lon)) ++ String.singleton (charAtD L3low (la3 lat)) ++
  toString (lo4 lon) ++ toString (la4 lat)

/-- Results of the external timezone / declination lookups performed when
the grid square changed (lines 554-586). -/
structure TZEnv where
  tz_name : String
  tz_abbrev : String
  tz_daylight : Bool
  tz_offset : String
  declination : String
deriving DecidableEq, Repr

/-- The `GPSAPI` fields read and written by `maidenhead`. -/
structure GpsState where
  mode : Nat
  latitude : ℚ
  longitude : ℚ
  altitude : ℚ
  tz_grid : String
  tz_abbrev : String
  tz_name : String
  tz_daylight : Bool
  tz_offset : String
  declination : String
deriving DecidableEq, Repr

/-- `GPSAPI.maidenhead` (lines 480-596): with a 3D fix, compute the grid,
refresh the cached timezone/declination data when the grid square changed,
record the grid and return it; otherwise clear all cached fields and
return the placeholder. -/
def gps_maidenhead (env : TZEnv) (g : GpsState) : GpsState × String :=
  if g.mode = 3 then
    let grid := maidenhead_grid g.latitude g.longitude
    let g2 := if grid ≠ g.tz_grid then
                { g with
                  tz_name := env.tz_name,
                  tz_abbrev := env.tz_abbrev,
                  tz_daylight := env.tz_daylight,
                  tz_offset := env.tz_offset,
                  declination := env.declination }
              else g
    ({ g2 with tz_grid := grid }, grid)
  else
    ({ g with
       tz_grid := "",
       tz_abbrev := "",
       tz_name := "",
       tz_daylight := false,
       tz_offset := "",
       declination := "" }, "--------")

/-! ## Shared concrete fixtures for witnesses and counterexamples -/

/-- A button whose raw state went DOWN at time 0 and has not been
committed yet. -/
def btnPending : Button :=
  ⟨"TOP", 26, some (), some (), "UP", 0, "DOWN", 0⟩

/-- A button with a committed DOWN at time 0 whose raw release arrived
exactly one day later. -/
def btnDayHold : Button :=
  ⟨"TOP", 26, some (), some (), "DOWN", 0, "UP", 86400000000⟩

/-- A button with a committed DOWN at time 0 whose raw release arrived
half a second later. -/
def btnShortHold : Button :=
  ⟨"TOP", 26, some (), some (), "DOWN", 0, "UP", 500000⟩

/-! ## C3 — debounce commit condition -/

/-- C3 counterexample: the claim says a mismatch stable for at least
100 ms (here, stable for a full second: poll time 1000000 us, momentary
timestamp 0) is committed by the poll; the code compares only the
`.microseconds` component of the elapsed timedelta, which is 0 here, so
the button is NOT committed (its debounced status stays `"UP"` although
the momentary status is `"DOWN"`). -/
theorem debounce_commit_counterexample :
    (1000000 : Int) - btnPending.momentary_status_time ≥ 100000 ∧
    btnPending.status ≠ btnPending.momentary_status ∧
    (check_button 1000000 btnPending).1.status = "UP" ∧
    (check_button 1000000 btnPending).1 = btnPending := by
  refine ⟨by decide, by decide, by decide, by decide⟩

/-- C3 amended: on a poll at time `t`, a button whose debounced status
differs from its momentary status is committed (momentary status and
timestamp copied into the debounced fields) EXACTLY when the
microseconds component of the timedelta `t - momentary_status_time` is
strictly greater than 100000 — not when the full elapsed time reaches
100 ms; when that component is at most 100000 (including exactly
100000, and including component 0 after a full second of stability),
the button is left completely unchanged. -/
theorem debounce_commit_amended (t : Int) (b : Button)
    (h1 : b.status ≠ b.momentary_status) :
    (check_button t b).1 =
      (if td_microseconds (t - b.momentary_status_time) > 100000 then
         { b with status := b.momentary_status, status_time := b.momentary_status_time }
       else b) := by
  by_cases h2 : td_microseconds (t - b.momentary_status_time) > 100000
  · simp [check_button, h1, h2]
  · simp [check_button, h1, h2]

/-- C3 amended witness, both directions of the characterization: a
mismatch whose timedelta has microsecond component 200000 (> 100000) is
committed at poll time 200000; the same mismatch polled at exactly
100000 us (component exactly 100000, the 100 ms boundary) and at
1000000 us (stable a full second, component 0) is NOT committed and the
button is unchanged. -/
theorem debounce_commit_amended_witness :
    (check_button 200000 btnPending).1.status = btnPending.momentary_status ∧
    (check_button 200000 btnPending).1.status_time = btnPending.momentary_status_time ∧
    (check_button 100000 btnPending).1 = btnPending ∧
    (check_button 1000000 btnPending).1 = btnPending := by
  refine ⟨?_, ?_, ?_, ?_⟩
  · have h := debounce_commit_amended 200000 btnPending (by decide)
    rw [h]; decide
  · have h := debounce_commit_amended 200000 btnPending (by decide)
    rw [h]; decide
  · have h := debounce_commit_amended 100000 btnPending (by decide)
    rw [h]; decide
  · have h := debounce_commit_amended 1000000 btnPending (by decide)
    rw [h]; decide

/-! ## C4 — click classification -/

/-- C4 counterexample: a committed DOWN-to-UP transition whose debounced
timestamps are exactly one day apart (elapsed 86400 s >= 1.0 s, so the
claim requires the long-click handler) dispatches the SHORT handler,
because the code's comparison `delta.seconds*1000000 + delta.microseconds`
discards the day component of the timedelta. -/
theorem click_classification_counterexample :
    btnDayHold.momentary_status_time - btnDayHold.status_time ≥ 1000000 ∧
    btnDayHold.callback_long.isSome = true ∧
    (check_button 86400200000 btnDayHold).2 = [Fired.short] := by
  refine ⟨by decide, by decide, by decide⟩

/-- C4 amended: when check_transitions commits a debounced DOWN-to-UP
transition for a button, it dispatches exactly one handler: the
long-click handler if the elapsed time between the previous
debounced-DOWN timestamp and the debounced-UP timestamp, REDUCED MODULO
ONE DAY (the day component of the timedelta is discarded), is at least
1.0 second, otherwise the short-click handler; a null handler in the
selected slot means nothing is called; and no handler fires when the
committed (or pending) momentary status is DOWN. -/
theorem click_classification_amended :
    (∀ (t : Int) (b : Button),
      b.status = "DOWN" → b.momentary_status = "UP" →
      td_microseconds (t - b.momentary_status_time) > 100000 →
      (check_button t b).2 =
        (if (b.momentary_status_time - b.status_time) % 86400000000 ≥ 1000000 then
           (if b.callback_long.isSome then [Fired.long] else [])
         else
           (if b.callback_short.isSome then [Fired.short] else []))) ∧
    (∀ (t : Int) (b : Button),
      b.momentary_status = "DOWN" → (check_button t b).2 = []) := by
  constructor
  · intro t b hd hu hst
    have hne : b.status ≠ b.momentary_status := by rw [hd, hu]; decide
    simp only [check_button, if_pos hne, if_pos hst, fires_for, hu, hd]
    rw [td_day_part]
    simp
  · intro t b hm
    by_cases h1 : b.status ≠ b.momentary_status
    · by_cases h2 : td_microseconds (t - b.momentary_status_time) > 100000
      · have : b.momentary_status ≠ "UP" := by rw [hm]; decide
        simp [check_button, h1, h2, fires_for, this]
      · simp [check_button, h1, h2]
    · simp [check_button, h1]

/-- C4 amended witness: a DOWN at time 0 released at 500000 us and polled
at 700000 us fires exactly the short handler; a button whose momentary
status is DOWN fires nothing. -/
theorem click_classification_amended_witness :
    (check_button 700000 btnShortHold).2 = [Fired.short] ∧
    (check_button 700000 btnPending).2 = [] := by
  constructor
  · have h := click_classification_amended.1 700000 btnShortHold (by decide) (by decide)
      (by decide)
    simpa using h
  · exact click_classification_amended.2 700000 btnPending (by decide)

/-! ## C8 — poller stop policy -/

/-- C8 counterexample: a pass at time 200000 that commits the one pending
button leaves every debounced status equal to its momentary status at
completion, yet the poll timer is NOT stopped in that pass (the
`mismatch` flag was set before the commit); it is only stopped by the
following pass. -/
theorem poller_stop_counterexample :
    ((check_transitions 200000 [btnPending]).1.all
        (fun b => b.status == b.momentary_status)) = true ∧
    (check_transitions 200000 [btnPending]).2.2 = false := by
  refine ⟨by decide, by decide⟩

/-- C8 amended: a check_transitions pass stops the polling timer exactly
when every registered button's debounced status already equalled its
momentary status at the START of the pass; a pass that commits the last
unsettled button leaves the timer running until the next pass. -/
theorem poller_stop_amended (t : Int) (bs : List Button) :
    (check_transitions t bs).2.2 =
      bs.all (fun b => b.status == b.momentary_status) := by
  simp only [check_transitions]
  induction bs with
  | nil => rfl
  | cons b rest ih =>
    simp only [List.any_cons, List.all_cons, Bool.not_or, bne, Bool.not_not] at *
    rw [ih]

/-! ## C5 — no callback after stop() returns -/

/-- C5 (code bug): with the timer expired and `_run` executing, the
interleaving `[runLocked, stopTimer, callFn]` is possible for
`RepeatedTimer` (the function call happens outside the lock, after the
locked section), and `[stopTimer, callFn, runLocked]` for
`RepeatedRealTimer` (the function call precedes the locked section);
in both, `stop()` has returned (cancel without join) and the wrapped
callback still runs afterwards, exactly once. -/
theorem timer_stop_callback_race :
    (timerRun [TimerEv.runLocked, TimerEv.stopTimer, TimerEv.callFn] timerInit).callsAfterStop
        = 1 ∧
    (timerRun [TimerEv.stopTimer, TimerEv.callFn, TimerEv.runLocked] timerInit).callsAfterStop
        = 1 := by
  refine ⟨by decide, by decide⟩

/-! ## C6 — re-entrant refresh is a no-op -/

/-- C6: if `in_progress` is already true, `refresh_info` returns
immediately and the whole controller and display state — in particular
work_mode, shutdown_stage, n_refresh, picture_done, current_menu and the
render log — is exactly as before, for every environment. -/
theorem refresh_reentry_noop (env : MEnv) (s : MState)
    (h : s.in_progress = true) :
    refresh_info env s = (s, Except.ok ()) := by
  have hs : ({ s with in_progress := true } : MState) = s := by
    cases s
    simp_all
  simp [refresh_info, h, hs]

/-- C6 witness: a pass triggered while the initial state is mid-pass
changes nothing. -/
theorem refresh_reentry_noop_witness :
    refresh_info envOk { s0run with in_progress := true } =
      ({ s0run with in_progress := true }, Except.ok ()) :=
  refresh_reentry_noop envOk { s0run with in_progress := true } rfl

/-! ## C2 — the mutual-exclusion flag on failure paths -/

/-- C2 (code bug): `refresh_info` has no try/finally; when
`ChronyInfo.update` raises (empty `chronyc` output), the exception
propagates out of the acquiring invocation with `in_progress` still
true, so every later refresh trigger is dropped forever. The claim that
the flag is reset on every outcome is false on this outcome. -/
theorem refresh_flag_stuck_on_failure :
    s0run.in_progress = false ∧
    (refresh_info envChronyDown s0run).2 = Except.error () ∧
    (refresh_info envChronyDown s0run).1.in_progress = true := by
  refine ⟨rfl, rfl, rfl⟩

/-! ## C1 — shutdown sequencing -/

/-- C1 counterexample: starting from the initial RUN state,
`action_shutdown()` sets the stage to REQUESTED, and already the NEXT
refresh pass — the same single pass that renders the shutting-down
notice and advances the stage to CONFIRMED — forces work_mode to
"stop" at its end (lines 1160-1161 are inside `refresh_info`); there is
no later pass that performs the transition, contradicting the claim
that "the pass after that" observes CONFIRMED and stops. -/
theorem shutdown_single_pass_counterexample :
    (action_shutdown s0run).shutdown_stage = 1 ∧
    (action_shutdown s0run).work_mode = "run" ∧
    (refresh_info envOk (action_shutdown s0run)).1.shutdown_stage = 2 ∧
    (refresh_info envOk (action_shutdown s0run)).1.work_mode = "stop" ∧
    continue_work (refresh_info envOk (action_shutdown s0run)).1 = false := by
  refine ⟨rfl, rfl, rfl, rfl, rfl⟩

/-- C1 amended: with work_mode RUN or SLEEP, `action_shutdown()` sets
shutdown_stage to REQUESTED (1); the next refresh pass in that mode
renders the shutting-down notice (the status line in RUN, the sleeping
graphic in SLEEP), advances shutdown_stage to CONFIRMED (2), and at the
end of that SAME pass observes CONFIRMED and forces work_mode to
STOPPED, after which `continue_work()` returns false. -/
theorem shutdown_sequencing_amended (s : MState) (env : MEnv)
    (hip : s.in_progress = false)
    (hmode : s.work_mode = "run" ∨ s.work_mode = "sleep")
    (henv : env.gpsFails = false ∧ env.chronyFails = false ∧ env.netFails = false) :
    (action_shutdown s).shutdown_stage = 1 ∧
    (refresh_info env (action_shutdown s)).2 = Except.ok () ∧
    (refresh_info env (action_shutdown s)).1.shutdown_stage = 2 ∧
    (refresh_info env (action_shutdown s)).1.work_mode = "stop" ∧
    continue_work (refresh_info env (action_shutdown s)).1 = false ∧
    (s.work_mode = "run" →
      RenderOp.statusLine ("Shutting down ...") ∈
        (refresh_info env (action_shutdown s)).1.rendered) ∧
    (s.work_mode = "sleep" →
      RenderOp.showSleeping ∈ (refresh_info env (action_shutdown s)).1.rendered) := by
  obtain ⟨hg, hc, hn⟩ := henv
  rcases hmode with hm | hm
  · simp [action_shutdown, set_event, hm, refresh_info, hip, hg, hc, hn, refresh_tail,
      continue_work, apply_ite (f := MState.rendered), apply_ite (f := MState.shutdown_stage),
      apply_ite (f := MState.work_mode), apply_ite (f := MState.in_progress)]
  · simp [action_shutdown, set_event, hm, refresh_info, hip, hg, hc, hn, refresh_tail,
      continue_work, apply_ite (f := MState.rendered), apply_ite (f := MState.shutdown_stage),
      apply_ite (f := MState.work_mode), apply_ite (f := MState.in_progress)]

/-- C1 amended witness at the initial state and a fully successful
environment. -/
theorem shutdown_sequencing_amended_witness :
    (action_shutdown s0run).shutdown_stage = 1 ∧
    (refresh_info envOk (action_shutdown s0run)).2 = Except.ok () ∧
    (refresh_info envOk (action_shutdown s0run)).1.shutdown_stage = 2 ∧
    (refresh_info envOk (action_shutdown s0run)).1.work_mode = "stop" ∧
    continue_work (refresh_info envOk (action_shutdown s0run)).1 = false ∧
    (s0run.work_mode = "run" →
      RenderOp.statusLine ("Shutting down ...") ∈
        (refresh_info envOk (action_shutdown s0run)).1.rendered) ∧
    (s0run.work_mode = "sleep" →
      RenderOp.showSleeping ∈ (refresh_info envOk (action_shutdown s0run)).1.rendered) :=
  shutdown_sequencing_amended s0run envOk rfl (Or.inl rfl) ⟨rfl, rfl, rfl⟩

/-! ## C7 — action guards -/

/-- A state in STOPPED mode with the power menu active, as left behind
after an exit sequence. -/
def sStopped : MState :=
  { s0run with work_mode := "stop", current_menu := power_menu }

/-- A state in SLEEP mode with the sleep menu active. -/
def sSleeping : MState :=
  { s0run with work_mode := "sleep", current_menu := sleep_menu }

/-- C7 counterexample: two handlers violate the claim.
`action_cancel_wifi_select` has no guard at all, so in STOPPED mode it
still replaces the current menu with the main menu; and
`action_wifi_select` is guarded to RUN-or-SLEEP in the code (not RUN as
the transition table says), so in SLEEP mode it installs the wifi menu
rather than being a no-op. -/
theorem action_guard_counterexample :
    (action_cancel_wifi_select sStopped).current_menu ≠ sStopped.current_menu ∧
    (action_wifi_select sSleeping).current_menu ≠ sSleeping.current_menu := by
  refine ⟨by decide, by decide⟩

/-- C7 amended: every handler except `action_cancel_wifi_select`, invoked
with a work_mode outside the guard its source body tests (refresh,
sleep and the three wifi mode switches: RUN; wakeup: SLEEP; wifi-select,
power, exit-confirm, shutdown, cancel-shutdown, exit and cancel-exit:
RUN or SLEEP — so in particular every guarded action in STOPPED mode),
is a silent no-op on work_mode, current_menu, wifi_mode and
shutdown_stage; `action_cancel_wifi_select` is unguarded: in every mode
it switches to the main menu, leaving the other three fields
unchanged. -/
theorem action_guard_amended :
    (∀ (a : MAction) (s : MState), a ≠ MAction.cancel_wifi_select →
      s.work_mode ∉ guardSet a →
      ((applyAction a s).work_mode = s.work_mode ∧
       (applyAction a s).current_menu = s.current_menu ∧
       (applyAction a s).wifi_mode = s.wifi_mode ∧
       (applyAction a s).shutdown_stage = s.shutdown_stage)) ∧
    (∀ s : MState,
      (applyAction MAction.cancel_wifi_select s).current_menu = main_menu ∧
      (applyAction MAction.cancel_wifi_select s).work_mode = s.work_mode ∧
      (applyAction MAction.cancel_wifi_select s).wifi_mode = s.wifi_mode ∧
      (applyAction MAction.cancel_wifi_select s).shutdown_stage = s.shutdown_stage) := by
  constructor
  · intro a s ha hg
    cases a <;>
      simp only [guardSet, List.mem_cons, List.mem_singleton, List.not_mem_nil,
        not_or] at hg <;>
      simp_all [applyAction, action_refresh, action_sleep, action_wifi_select,
        action_wifi_home, action_wifi_field, action_wifi_off, action_power,
        action_exit_confirm, action_wakeup, action_shutdown, action_cancel_shutdown,
        action_exit, action_cancel_exit, set_event, set_current_menu]
  · intro s
    simp [applyAction, action_cancel_wifi_select, set_event, set_current_menu]

/-- C7 amended witness: in STOPPED mode the wakeup handler changes
nothing, and the unguarded cancel-wifi-select handler switches the
stopped controller to the main menu. -/
theorem action_guard_amended_witness :
    ((applyAction MAction.wakeup sStopped).work_mode = sStopped.work_mode ∧
     (applyAction MAction.wakeup sStopped).current_menu = sStopped.current_menu ∧
     (applyAction MAction.wakeup sStopped).wifi_mode = sStopped.wifi_mode ∧
     (applyAction MAction.wakeup sStopped).shutdown_stage = sStopped.shutdown_stage) ∧
    (applyAction MAction.cancel_wifi_select sStopped).current_menu = main_menu :=
  ⟨action_guard_amended.1 MAction.wakeup sStopped (by decide) (by decide),
   (action_guard_amended.2 sStopped).1⟩

/-! ## C9 — the wifi selection menu -/

/-- C9 counterexample: with current wifi_mode "AP" the menu that
`action_wifi_select` installs keeps the OFF action, not the cancel/back
action, in the bottom short-click slot (for "AP" the replaced slot is
the MIDDLE one, which carries the field/AP icon). -/
theorem wifi_menu_counterexample :
    (action_wifi_select s0run).current_menu.action_on_bottom_pressed_short =
      some MAction.wifi_off ∧
    (action_wifi_select s0run).current_menu.action_on_bottom_pressed_short ≠
      some MAction.cancel_wifi_select ∧
    s0run.wifi_mode = "AP" := by
  refine ⟨by decide, by decide, by decide⟩

/-- C9 amended: `action_wifi_select` in RUN mode installs the
context-sensitive wifi menu, and the short-click slot corresponding to
the CURRENTLY ACTIVE mode carries the cancel/back action: the top slot
(home/CLIENT icon) for wifi_mode "CLIENT", the middle slot (field/AP
icon) for "AP", and the bottom slot (off icon) for "OFF"; with "AP"
active the bottom slot keeps the off action. -/
theorem wifi_menu_amended (s : MState) (h : s.work_mode = "run") :
    (action_wifi_select s).current_menu = wifiMenuFor s.wifi_mode ∧
    (wifiMenuFor ("AP")).action_on_middle_pressed_short =
      some MAction.cancel_wifi_select ∧
    (wifiMenuFor ("CLIENT")).action_on_top_pressed_short =
      some MAction.cancel_wifi_select ∧
    (wifiMenuFor ("OFF")).action_on_bottom_pressed_short =
      some MAction.cancel_wifi_select ∧
    (wifiMenuFor ("AP")).action_on_bottom_pressed_short = some MAction.wifi_off := by
  refine ⟨?_, by decide, by decide, by decide, by decide⟩
  simp [action_wifi_select, h, set_event, set_current_menu]

/-- C9 amended witness at the initial RUN state (wifi_mode "AP"). -/
theorem wifi_menu_amended_witness :
    (action_wifi_select s0run).current_menu = wifiMenuFor s0run.wifi_mode ∧
    (wifiMenuFor ("AP")).action_on_middle_pressed_short =
      some MAction.cancel_wifi_select ∧
    (wifiMenuFor ("CLIENT")).action_on_top_pressed_short =
      some MAction.cancel_wifi_select ∧
    (wifiMenuFor ("OFF")).action_on_bottom_pressed_short =
      some MAction.cancel_wifi_select ∧
    (wifiMenuFor ("AP")).action_on_bottom_pressed_short = some MAction.wifi_off :=
  wifi_menu_amended s0run rfl

/-! ## C10 — maidenhead totality, clamping and the no-fix branch -/

theorem clampI_bounds (v hi : Int) (h : 0 ≤ hi) :
    0 ≤ clampI v hi ∧ clampI v hi ≤ hi := by
  unfold clampI
  split_ifs <;> omega

theorem lo1_bounds (lon : ℚ) : 0 ≤ lo1 lon ∧ lo1 lon ≤ 17 :=
  clampI_bounds _ _ (by norm_num)

theorem lo2_bounds (lon : ℚ) : 0 ≤ lo2 lon ∧ lo2 lon ≤ 9 :=
  clampI_bounds _ _ (by norm_num)

theorem lo3_bounds (lon : ℚ) : 0 ≤ lo3 lon ∧ lo3 lon ≤ 23 :=
  clampI_bounds _ _ (by norm_num)

theorem lo4_bounds (lon : ℚ) : 0 ≤ lo4 lon ∧ lo4 lon ≤ 9 :=
  clampI_bounds _ _ (by norm_num)

theorem la1_bounds (lat : ℚ) : 0 ≤ la1 lat ∧ la1 lat ≤ 17 :=
  clampI_bounds _ _ (by norm_num)

theorem la2_bounds (lat : ℚ) : 0 ≤ la2 lat ∧ la2 lat ≤ 9 :=
  clampI_bounds _ _ (by norm_num)

theorem la3_bounds (lat : ℚ) : 0 ≤ la3 lat ∧ la3 lat ≤ 23 :=
  clampI_bounds _ _ (by norm_num)

theorem la4_bounds (lat : ℚ) : 0 ≤ la4 lat ∧ la4 lat ≤ 9 :=
  clampI_bounds _ _ (by norm_num)

theorem int_digit_repr_length (v : Int) (h0 : 0 ≤ v) (h9 : v ≤ 9) :
    (toString v).length = 1 := by
  interval_cases v <;> rfl

theorem string_singleton_length (c : Char) : (String.singleton c).length = 1 := rfl

/-- C10: for every finite latitude and longitude, the grid computation is
total and yields an 8-character string, every one of the four letter and
four digit indices is clamped into the valid range of its alphabet
(0..17 into the 18-letter field alphabet, 0..9 digits, 0..23 into the
24-letter subsquare alphabet) so no lookup is out of bounds; with a 3D
fix `maidenhead` returns that grid, and without a 3D fix it returns
exactly "--------" and clears the cached timezone/declination fields. -/
theorem gps_maidenhead_safe (lat lon : ℚ) (g : GpsState) (env : TZEnv) :
    ((maidenhead_grid lat lon).length = 8 ∧
      (lo1 lon).toNat < L1.data.length ∧ (la1 lat).toNat < L1.data.length ∧
      (0 ≤ lo2 lon ∧ lo2 lon ≤ 9) ∧ (0 ≤ la2 lat ∧ la2 lat ≤ 9) ∧
      (lo3 lon).toNat < L3low.data.length ∧ (la3 lat).toNat < L3low.data.length ∧
      (0 ≤ lo4 lon ∧ lo4 lon ≤ 9) ∧ (0 ≤ la4 lat ∧ la4 lat ≤ 9)) ∧
    (g.mode = 3 →
      (gps_maidenhead env g).2 = maidenhead_grid g.latitude g.longitude) ∧
    (g.mode ≠ 3 →
      (gps_maidenhead env g).2 = "--------" ∧
      (gps_maidenhead env g).1.tz_grid = "" ∧
      (gps_maidenhead env g).1.tz_abbrev = "" ∧
      (gps_maidenhead env g).1.tz_name = "" ∧
      (gps_maidenhead env g).1.tz_daylight = false ∧
      (gps_maidenhead env g).1.tz_offset = "" ∧
      (gps_maidenhead env g).1.declination = "") := by
  refine ⟨⟨?_, ?_, ?_, lo2_bounds lon, la2_bounds lat, ?_, ?_, lo4_bounds lon,
      la4_bounds lat⟩, ?_, ?_⟩
  · have h2 := lo2_bounds lon
    have h2' := la2_bounds lat
    have h4 := lo4_bounds lon
    have h4' := la4_bounds lat
    simp [maidenhead_grid, String.length_append, string_singleton_length,
      int_digit_repr_length _ h2.1 h2.2, int_digit_repr_length _ h2'.1 h2'.2,
      int_digit_repr_length _ h4.1 h4.2, int_digit_repr_length _ h4'.1 h4'.2]
  · have h := lo1_bounds lon
    have hl : L1.data.length = 18 := rfl
    omega
  · have h := la1_bounds lat
    have hl : L1.data.length = 18 := rfl
    omega
  · have h := lo3_bounds lon
    have hl : L3low.data.length = 24 := rfl
    omega
  · have h := la3_bounds lat
    have hl : L3low.data.length = 24 := rfl
    omega
  · intro h3
    simp [gps_maidenhead, h3]
  · intro h3
    simp [gps_maidenhead, h3]

/-- C10 witness: at the origin with a 3D fix the grid has 8 characters
and is returned, and with no fix the placeholder is returned and the
cache cleared. -/
theorem gps_maidenhead_safe_witness :
    (maidenhead_grid 0 0).length = 8 ∧
    (gps_maidenhead ⟨"", "", false, "", ""⟩
        ⟨3, 0, 0, 0, "", "", "", false, "", ""⟩).2 = maidenhead_grid 0 0 ∧
    (gps_maidenhead ⟨"", "", false, "", ""⟩
        ⟨0, 0, 0, 0, "X", "X", "X", true, "X", "X"⟩).2 = "--------" ∧
    (gps_maidenhead ⟨"", "", false, "", ""⟩
        ⟨0, 0, 0, 0, "X", "X", "X", true, "X", "X"⟩).1.tz_grid = "" := by
  refine ⟨(gps_maidenhead_safe 0 0 ⟨3, 0, 0, 0, "", "", "", false, "", ""⟩
      ⟨"", "", false, "", ""⟩).1.1, ?_, ?_, ?_⟩
  · exact (gps_maidenhead_safe 0 0 ⟨3, 0, 0, 0, "", "", "", false, "", ""⟩
      ⟨"", "", false, "", ""⟩).2.1 rfl
  · exact ((gps_maidenhead_safe 0 0 ⟨0, 0, 0, 0, "X", "X", "X", true, "X", "X"⟩
      ⟨"", "", false, "", ""⟩).2.2 (by decide)).1
  · exact ((gps_maidenhead_safe 0 0 ⟨0, 0, 0, 0, "X", "X", "X", true, "X", "X"⟩
      ⟨"", "", false, "", ""⟩).2.2 (by decide)).2.1
